import Mathlib

/-!
Verification of the ship-it provisioning orchestrator and cleanup tracker.

The development shallowly embeds the TypeScript sources:
* `src/lib/cleanup.ts` (the crash-safe cleanup tracker),
* `src/lib/hetzner.ts` (the cloud-provider client: ensure operations and
  polling loops),
* `src/lib/deploy.ts` (the multi-server `fullDeploy` orchestrator),
* `src/lib/ssh.ts` (`waitForSSH`),
* the non-interactive runner (`provision`) that calls `initCleanup` before
  creating any server.

Asynchronous effectful code is modelled by explicit state passing; provider
interactions are recorded in an event trace; fallible operations return
`Except String`.  `Promise.all` fan-out completes only when every branch
completes (fan-in), so it is modelled by sequential iteration in request
order.  Wall-clock polling loops are modelled by counting iterations: each
iteration of a `while (Date.now() - start < timeoutMs)` loop costs exactly
one fixed inter-poll delay, so a loop with timeout `t` and delay `d` runs
at most `ceil(t / d)` iterations.
-/

namespace ShipIt

/-! ## Cleanup tracker (src/lib/cleanup.ts)

In-memory module state is `CleanupState`; the persisted JSON file at the
well-known temp path is `Option CleanupState` (`none` = file absent or
unparsable, which the source treats identically via try/catch).  Provider
DELETE calls issued by a sweep are returned as the list of server ids, in
call order; the per-call success/failure outcome (`deleteOk`) only affects
logging in the source, never control flow, so every operation is
parameterised by an arbitrary outcome function. -/

structure CleanupState where
  hetznerToken : Option String
  serverIds : List Nat
deriving DecidableEq

/-- The absent-file state: `Option CleanupState`, `none` when the file does
not exist or fails to parse. -/
abbrev CleanupFile := Option CleanupState

/-- Initial module state of cleanup.ts: `hetznerToken null, serverIds empty`. -/
def initialCleanupState : CleanupState := { hetznerToken := none, serverIds := [] }

/-- `persistState`: overwrite the persisted file with the full current state
(JSON.stringify of the whole module state). -/
def persistState (st : CleanupState) : CleanupFile := some st

/-- `trackServer(serverId)`: push the id onto in-memory `serverIds`, then
`persistState`.  Returns the new in-memory state and the new file content. -/
def trackServer (st : CleanupState) (_file : CleanupFile) (serverId : Nat) :
    CleanupState × CleanupFile :=
  let st2 := { st with serverIds := st.serverIds ++ [serverId] }
  (st2, persistState st2)

/-- `untrackServer(serverId)`: filter the id out, then `persistState`. -/
def untrackServer (st : CleanupState) (_file : CleanupFile) (serverId : Nat) :
    CleanupState × CleanupFile :=
  let st2 := { st with serverIds := st.serverIds.filter (fun id => id ≠ serverId) }
  (st2, persistState st2)

/-- `runCleanup()`: if no tracked ids or no token, return immediately
(touching neither memory nor file).  Otherwise issue one DELETE per tracked
id in order — the response (`deleteOk`) is only logged, an individual
failure never aborts the sweep — then set `serverIds := []` and unlink the
persisted file.  Result: (issued delete calls, new state, new file). -/
def runCleanup (deleteOk : Nat → Bool) (st : CleanupState) (file : CleanupFile) :
    List Nat × CleanupState × CleanupFile :=
  if st.serverIds = [] ∨ st.hetznerToken = none then
    ([], st, file)
  else
    let _outcomes := st.serverIds.map deleteOk
    (st.serverIds, { st with serverIds := [] }, none)

/-- `recoverOrphanedServers()`: read and parse the persisted file (any
failure is swallowed: no file ⇒ no-op).  If the persisted record has ids
and the current in-memory token is set, merge the persisted ids into the
in-memory list (skipping ids already present, in order) and `runCleanup`. -/
def recoverOrphanedServers (deleteOk : Nat → Bool) (st : CleanupState)
    (file : CleanupFile) : List Nat × CleanupState × CleanupFile :=
  match file with
  | none => ([], st, file)
  | some persisted =>
    if 0 < persisted.serverIds.length ∧ st.hetznerToken.isSome then
      let merged := persisted.serverIds.foldl
        (fun acc id => if id ∈ acc then acc else acc ++ [id]) st.serverIds
      runCleanup deleteOk { st with serverIds := merged } file
    else
      ([], st, file)

/-- `initCleanup(hetznerToken)`: store the token in the module state, then
recover orphaned servers from the persisted file.  (Signal and
uncaught-error handler registration has no effect in this embedding.) -/
def initCleanup (deleteOk : Nat → Bool) (hetznerToken : String)
    (st : CleanupState) (file : CleanupFile) :
    List Nat × CleanupState × CleanupFile :=
  recoverOrphanedServers deleteOk { st with hetznerToken := some hetznerToken } file

/-! The non-interactive runner (`provision` in run.ts, dev mode) awaits
`initCleanup(token)` before any `createServer` call.  `provisionDev`
records that ordering as an event trace: the deletes issued by recovery,
then the create of the requested server (which is then tracked). -/

inductive CliEvent
  | deleteServer (id : Nat)
  | createServer (name : String)
deriving DecidableEq

/-- Dev-mode provisioning ordering from run.ts: `initCleanup` first, then
`createServer(serverName)` followed by `trackServer` of the new id. -/
def provisionDev (deleteOk : Nat → Bool) (token serverName : String) (newId : Nat)
    (st : CleanupState) (file : CleanupFile) :
    List CliEvent × CleanupState × CleanupFile :=
  let rec1 := initCleanup deleteOk token st file
  let tracked := trackServer rec1.2.1 rec1.2.2 newId
  (rec1.1.map CliEvent.deleteServer ++ [CliEvent.createServer serverName],
   tracked.1, tracked.2)

/-! ## Hetzner client (src/lib/hetzner.ts)

The provider is modelled by `ProviderState`: the lists of SSH keys and
firewalls it holds, plus a counter for provider-assigned ids.  `ensure`
operations report whether a create call was issued. -/

structure SSHKey where
  id : Nat
  name : String
  fingerprint : String
  public_key : String
deriving DecidableEq

structure Firewall where
  id : Nat
  name : String
deriving DecidableEq

structure FirewallRule where
  description : String
  direction : String
  protocol : String
  port : String
deriving DecidableEq

structure FirewallOptions where
  accessoryPorts : Option (List Nat) := none

structure ProviderState where
  sshKeys : List SSHKey
  firewalls : List Firewall
  nextId : Nat
deriving DecidableEq

/-- `getSSHKeyByName`: list all keys, `find` the first with the given name. -/
def getSSHKeyByName (ps : ProviderState) (name : String) : Option SSHKey :=
  ps.sshKeys.find? (fun k => k.name == name)

/-- `createSSHKey`: POST the name and public key; the provider registers a
new key under a fresh id and returns it. -/
def createSSHKey (ps : ProviderState) (name publicKey : String) :
    ProviderState × SSHKey :=
  let k : SSHKey := { id := ps.nextId, name := name,
                      fingerprint := "fp", public_key := publicKey }
  ({ ps with sshKeys := ps.sshKeys ++ [k], nextId := ps.nextId + 1 }, k)

/-- `ensureSSHKey`: lookup by name; return the existing key if found, else
create one.  The final component records whether a create call was issued. -/
def ensureSSHKey (ps : ProviderState) (name publicKey : String) :
    ProviderState × SSHKey × Bool :=
  match getSSHKeyByName ps name with
  | some existing => (ps, existing, false)
  | none =>
    let created := createSSHKey ps name publicKey
    (created.1, created.2, true)

/-- The rule set `createFirewall` sends: SSH/HTTP/HTTPS, plus one rule per
accessory port when provisioning a dedicated DB server. -/
def firewallRules (options : FirewallOptions) : List FirewallRule :=
  let base : List FirewallRule :=
    [ { description := "SSH", direction := "in", protocol := "tcp", port := "22" },
      { description := "HTTP", direction := "in", protocol := "tcp", port := "80" },
      { description := "HTTPS", direction := "in", protocol := "tcp", port := "443" } ]
  match options.accessoryPorts with
  | some ports =>
      base ++ ports.map (fun p =>
        { description := "DB port " ++ toString p, direction := "in",
          protocol := "tcp", port := toString p })
  | none => base

/-- `getFirewallByName`: list firewalls, `find` the first with the name. -/
def getFirewallByName (ps : ProviderState) (name : String) : Option Firewall :=
  ps.firewalls.find? (fun f => f.name == name)

/-- `createFirewall`: POST name and rules; provider returns id and name. -/
def createFirewall (ps : ProviderState) (name : String) (_options : FirewallOptions) :
    ProviderState × Firewall :=
  let f : Firewall := { id := ps.nextId, name := name }
  ({ ps with firewalls := ps.firewalls ++ [f], nextId := ps.nextId + 1 }, f)

/-- `ensureFirewall`: lookup by name, return if found, else create. -/
def ensureFirewall (ps : ProviderState) (name : String) (options : FirewallOptions) :
    ProviderState × Firewall × Bool :=
  match getFirewallByName ps name with
  | some existing => (ps, existing, false)
  | none =>
    let created := createFirewall ps name options
    (created.1, created.2, true)

/-! ## Polling loops (hetzner.ts waitForServer / waitForLoadBalancer,
ssh.ts waitForSSH)

Each loop re-checks `Date.now() - start < timeoutMs`, issues one status
call, and sleeps a fixed delay; the elapsed clock is modelled as the number
of completed iterations times the delay, so the loop body runs exactly
`ceil(timeoutMs / delay)` times before the timeout error. -/

structure ServerView where
  id : Nat
  name : String
  status : String
  ipv4 : String
  ipv6 : String
deriving DecidableEq

structure LoadBalancerView where
  id : Nat
  name : String
  ipv4 : String
  targets : List Nat
deriving DecidableEq

/-- Fixed inter-poll delay of the server wait loop (ms). -/
def serverPollDelayMs : Nat := 2000
/-- Default wall-clock timeout of the server wait loop (ms). -/
def serverWaitTimeoutMs : Nat := 120000
/-- Fixed inter-poll delay of the load-balancer wait loop (ms). -/
def lbPollDelayMs : Nat := 2000
/-- Default wall-clock timeout of the load-balancer wait loop (ms). -/
def lbWaitTimeoutMs : Nat := 60000
/-- Fixed inter-poll delay of the SSH wait loop (ms). -/
def sshPollDelayMs : Nat := 3000
/-- Default wall-clock timeout of the SSH wait loop (ms). -/
def sshWaitTimeoutMs : Nat := 180000

/-- Iteration budget of a fixed-delay poll loop: `ceil(timeoutMs / delay)`. -/
def pollBudget (timeoutMs delayMs : Nat) : Nat :=
  (timeoutMs + delayMs - 1) / delayMs

def waitForServerGo (getServer : Nat → ServerView) (attempt : Nat) :
    Nat → Except String ServerView
  | 0 => .error "Server creation timed out"
  | fuel + 1 =>
    let server := getServer attempt
    if server.status == "running" then .ok server
    else waitForServerGo getServer (attempt + 1) fuel

/-- `waitForServer`: poll `getServer` every 2 s until status is `running`,
failing with `Server creation timed out` once the wall clock passes
`timeoutMs`.  `getServer` maps the poll attempt index to the response. -/
def waitForServer (getServer : Nat → ServerView)
    (timeoutMs : Nat := serverWaitTimeoutMs) : Except String ServerView :=
  waitForServerGo getServer 0 (pollBudget timeoutMs serverPollDelayMs)

def waitForLoadBalancerGo (getLB : Nat → LoadBalancerView) (attempt : Nat) :
    Nat → Except String LoadBalancerView
  | 0 => .error "Load balancer creation timed out"
  | fuel + 1 =>
    let lb := getLB attempt
    if lb.ipv4 != "" then .ok lb
    else waitForLoadBalancerGo getLB (attempt + 1) fuel

/-- `waitForLoadBalancer`: poll every 2 s until the load balancer has a
public IPv4 (JS truthiness: the empty string means not yet assigned),
failing with `Load balancer creation timed out` at the timeout. -/
def waitForLoadBalancer (getLB : Nat → LoadBalancerView)
    (timeoutMs : Nat := lbWaitTimeoutMs) : Except String LoadBalancerView :=
  waitForLoadBalancerGo getLB 0 (pollBudget timeoutMs lbPollDelayMs)

def waitForSSHGo (sshExitCode : Nat → Nat) (ip : String) (timeoutMs : Nat)
    (attempt : Nat) : Nat → Except String Unit
  | 0 => .error ("SSH connection to " ++ ip ++ " timed out after "
                 ++ toString (timeoutMs / 1000) ++ "s")
  | fuel + 1 =>
    if sshExitCode attempt == 0 then .ok ()
    else waitForSSHGo sshExitCode ip timeoutMs (attempt + 1) fuel

/-- `waitForSSH`: run `ssh ip "echo ok"` every 3 s (connection errors and
non-zero exits both count as not ready) until exit code 0, failing with
`SSH connection to <ip> timed out after <timeout/1000>s` at the timeout. -/
def waitForSSH (sshExitCode : Nat → Nat) (ip : String)
    (timeoutMs : Nat := sshWaitTimeoutMs) : Except String Unit :=
  waitForSSHGo sshExitCode ip timeoutMs 0 (pollBudget timeoutMs sshPollDelayMs)

/-! ## Deployment orchestrator (src/lib/deploy.ts, multi-server `fullDeploy`)

The orchestrator runs in `DeployM`: explicit state (the mutable step list
plus the trace of provider calls) with `Except String` failure whose state
survives the failure (the source mutates `steps` before rethrowing).
Provider responses come from a `DeployEnv`; every provider call is recorded
as an `HEvent` in request order. -/

inductive StepStatus
  | pending
  | running
  | done
  | error
deriving DecidableEq

structure DeployStep where
  id : String
  name : String
  status : StepStatus
  message : Option String
deriving DecidableEq

/-- The ordered step table of the multi-server `fullDeploy`. -/
def STEPS : List (String × String) :=
  [ ("detect", "Detecting project"),
    ("ssh-key", "Setting up SSH key"),
    ("firewall", "Creating firewall"),
    ("servers", "Provisioning app servers"),
    ("wait-servers", "Waiting for app servers"),
    ("accessories-server", "Provisioning accessories server"),
    ("load-balancer", "Creating load balancer"),
    ("ssh-wait", "Waiting for SSH"),
    ("dockerfile", "Generating Dockerfile"),
    ("kamal-check", "Checking Kamal"),
    ("kamal-init", "Configuring Kamal"),
    ("git-commit", "Committing config"),
    ("kamal-setup", "Running Kamal setup") ]

def initialSteps : List DeployStep :=
  STEPS.map (fun s => { id := s.1, name := s.2, status := .pending, message := none })

/-- One provider interaction.  `createServer` records the requested name and
the id the provider answered with (0 when the call itself failed). -/
inductive HEvent
  | ensureSSHKey (name : String)
  | ensureFirewall (name : String)
  | createServer (name : String) (id : Nat)
  | trackServer (id : Nat)
  | waitForServer (id : Nat)
  | applyFirewall (firewallId serverId : Nat)
  | createLoadBalancer (name : String) (targets : List Nat)
  | waitForLoadBalancer (id : Nat)
  | waitForSSH (ip : String)
deriving DecidableEq

structure DState where
  steps : List DeployStep
  trace : List HEvent
deriving DecidableEq

/-- The orchestrator monad: state threading with failure; the state at the
moment of failure is preserved (step statuses already set remain visible). -/
def DeployM (α : Type) : Type := DState → Except String α × DState

instance : Monad DeployM where
  pure a := fun s => (.ok a, s)
  bind m f := fun s =>
    match m s with
    | (.ok a, s2) => f a s2
    | (.error e, s2) => (.error e, s2)

def throwM {α : Type} (e : String) : DeployM α := fun s => (.error e, s)

def tryCatchM {α : Type} (m : DeployM α) (handle : String → DeployM α) :
    DeployM α := fun s =>
  match m s with
  | (.ok a, s2) => (.ok a, s2)
  | (.error e, s2) => handle e s2

def getM : DeployM DState := fun s => (.ok s, s)

def modifyM (f : DState → DState) : DeployM Unit := fun s => (.ok (), f s)

/-- Lift a provider/tool response into the monad. -/
def liftE {α : Type} : Except String α → DeployM α
  | .ok a => pure a
  | .error e => throwM e

def emitEvent (e : HEvent) : DeployM Unit :=
  modifyM (fun s => { s with trace := s.trace ++ [e] })

/-- `updateStep`: find the step with the id and set its status and message
(the progress callback receives snapshots and is not modelled). -/
def setStepState (s : DState) (stepId : String) (status : StepStatus)
    (message : Option String) : DState :=
  { s with steps := s.steps.map (fun st =>
      if st.id == stepId then { st with status := status, message := message }
      else st) }

def updateStep (stepId : String) (status : StepStatus) (message : Option String) :
    DeployM Unit :=
  modifyM (fun s => setStepState s stepId status message)

/-- Display name of a step: `steps.find(s => s.id === stepId)?.name || stepId`. -/
def displayName (steps : List DeployStep) (stepId : String) : String :=
  ((steps.find? (fun st => st.id == stepId)).map (fun st => st.name)).getD stepId

/-- `runStep`: set the step `running`, run the body; on success set `done`
with the optional message and return the result; on exception set `error`
with the failure text and rethrow prefixed by the step display name. -/
def runStep {α : Type} (stepId : String) (act : DeployM α)
    (successMessage : α → Option String) : DeployM α := do
  updateStep stepId .running none
  tryCatchM
    (do
      let result ← act
      updateStep stepId .done (successMessage result)
      pure result)
    (fun errorMsg => do
      updateStep stepId .error (some errorMsg)
      let s ← getM
      throwM (displayName s.steps stepId ++ ": " ++ errorMsg))

/-- A provider call: the request is recorded in the trace, then the
environment answers. -/
def provCall {α : Type} (e : HEvent) (response : Except String α) : DeployM α := do
  emitEvent e
  liftE response

structure ProjectInfo where
  ptype : String
  hasDockerfile : Bool
  name : String
deriving DecidableEq

structure SSHKeyPair where
  name : String
  publicKey : String
  privateKeyPath : String
deriving DecidableEq

structure AccessorySpec where
  port : Nat
deriving DecidableEq

structure AccessoriesConfig where
  enabled : Bool
  placement : String
  accessories : List AccessorySpec
deriving DecidableEq

structure DeployOptions where
  serverName : String
  location : String
  serverType : String
  serverCount : Nat := 1
  accessories : Option AccessoriesConfig := none
  domain : Option String := none
  mode : String := "production"

structure DeployResult where
  serverIds : List Nat
  serverIps : List String
  serverNames : List String
  loadBalancerId : Option Nat
  loadBalancerIp : Option String
  domain : String
deriving DecidableEq

/-- Provider/tool responses.  `createServerRes` is keyed by the index of
the create call (how many creates happened before) and the requested name;
waits are keyed by the id being polled; `waitForServerRes` abstracts the
whole poll loop (its internals are `waitForServer` above). -/
structure DeployEnv where
  detect : Except String ProjectInfo
  generateKey : Except String SSHKeyPair
  ensureSSHKeyRes : String → String → Except String Unit
  ensureFirewallRes : String → Option (List Nat) → Except String Firewall
  createServerRes : Nat → String → Except String ServerView
  waitForServerRes : Nat → Except String ServerView
  applyFirewallRes : Nat → Nat → Except String Unit
  createLoadBalancerRes : String → List Nat → Except String LoadBalancerView
  waitForLoadBalancerRes : Nat → Except String LoadBalancerView
  waitForSSHRes : String → Except String Unit
  generateDockerfileRes : Except String Unit
  kamalInstalled : Bool
  kamalInitRes : Except String Unit
  gitCommitExit : Nat
  kamalSetupRes : Except String Unit

def countCreates (tr : List HEvent) : Nat :=
  tr.countP (fun e => match e with | .createServer _ _ => true | _ => false)

/-- One `hetzner.createServer` call: the env answers based on how many
creates were already issued (a deterministic provider assigning ids in
order); the request and the answered id are recorded. -/
def createServerCall (env : DeployEnv) (name : String) : DeployM ServerView := do
  let s ← getM
  match env.createServerRes (countCreates s.trace) name with
  | .ok server => do
      emitEvent (.createServer name server.id)
      pure server
  | .error e => do
      emitEvent (.createServer name 0)
      throwM e

/-- Server name for index `i` (1-based): `name-i` when more than one. -/
def serverNameFor (serverName : String) (serverCount i : Nat) : String :=
  if serverCount > 1 then serverName ++ "-" ++ toString i else serverName

/-- Step 4 body: create servers for indices `idxs` in order; in dev mode
each created id is tracked for cleanup right after the create returns. -/
def createServersGo (env : DeployEnv) (opts : DeployOptions) :
    List Nat → DeployM (List ServerView)
  | [] => pure []
  | i :: rest => do
    let name := serverNameFor opts.serverName opts.serverCount i
    let server ← createServerCall env name
    if opts.mode == "dev" then emitEvent (.trackServer server.id) else pure ()
    let restServers ← createServersGo env opts rest
    pure (server :: restServers)

/-- Step 5 body: `Promise.all` over `waitForServer` per created server —
fan-in: the step finishes only when every wait finished (or one failed). -/
def waitServersGo (env : DeployEnv) : List ServerView → DeployM (List ServerView)
  | [] => pure []
  | server :: rest => do
    let ready ← provCall (.waitForServer server.id) (env.waitForServerRes server.id)
    let restReady ← waitServersGo env rest
    pure (ready :: restReady)

/-- The inline firewall-apply loop (not a tracked step): each failure is
rethrown as `Applying firewall to server <id>: <msg>`. -/
def applyFirewallGo (env : DeployEnv) (firewallId : Nat) :
    List ServerView → DeployM Unit
  | [] => pure ()
  | server :: rest => do
    tryCatchM
      (provCall (.applyFirewall firewallId server.id)
        (env.applyFirewallRes firewallId server.id))
      (fun errorMsg =>
        throwM ("Applying firewall to server " ++ toString server.id ++ ": " ++ errorMsg))
    applyFirewallGo env firewallId rest

/-- Step 8 body: `Promise.all` over `waitForSSH` per host ip. -/
def sshWaitGo (env : DeployEnv) : List String → DeployM Unit
  | [] => pure ()
  | ip :: rest => do
    let _ ← provCall (.waitForSSH ip) (env.waitForSSHRes ip)
    sshWaitGo env rest

/-- JS `a || b` on a string that may be absent or empty. -/
def jsOrString (a : Option String) (b : String) : String :=
  match a with
  | some s => if s == "" then b else s
  | none => b

/-- The multi-server `fullDeploy` pipeline, step for step.  Local artifact
work (Dockerfile, Kamal config, git commit, `~/.ssh/config` mangling,
`saveDeployment`) is answered by the environment without provider events. -/
def fullDeploy (env : DeployEnv) (opts : DeployOptions) : DeployM DeployResult := do
  let isDryRun := opts.mode == "dry-run"
  -- Step 1: Detect project
  let projectInfo ← runStep "detect" (liftE env.detect)
    (fun info => some ("Detected " ++ info.ptype ++ " project"))
  -- Step 2: Generate SSH key
  let sshKeyName := "ship-it-" ++ opts.serverName
  let _localKey ←
    if isDryRun then do
      updateStep "ssh-key" .done (some "[dry-run]")
      pure { name := sshKeyName, publicKey := "ssh-ed25519 MOCK_KEY ship-it-dry-run",
             privateKeyPath := "/tmp/mock-key" : SSHKeyPair }
    else
      runStep "ssh-key"
        (do
          let key ← liftE env.generateKey
          let _ ← provCall (.ensureSSHKey sshKeyName)
            (env.ensureSSHKeyRes sshKeyName key.publicKey)
          pure key)
        (fun _ => none)
  -- Step 3: Create firewall (accessory ports only for a dedicated DB server)
  let accessoryPorts : Option (List Nat) :=
    match opts.accessories with
    | some acc =>
      if acc.enabled && acc.placement == "dedicated-server" then
        some (acc.accessories.map (fun a => a.port))
      else none
    | none => none
  let firewallName := "ship-it-" ++ opts.serverName
  let firewall ← runStep "firewall"
    (provCall (.ensureFirewall firewallName)
      (env.ensureFirewallRes firewallName accessoryPorts))
    (fun _ => none)
  -- Step 4: Create servers
  let servers ← runStep "servers"
    (createServersGo env opts (List.range' 1 opts.serverCount))
    (fun created => some (toString created.length ++ " server(s) created"))
  -- Step 5: Wait for all servers to be running
  let readyServers ← runStep "wait-servers"
    (waitServersGo env servers)
    (fun ready => some ("IPs: " ++ String.intercalate ", " (ready.map (fun r => r.ipv4))))
  let serverIps := readyServers.map (fun s => s.ipv4)
  let serverIds := readyServers.map (fun s => s.id)
  let serverNames := readyServers.map (fun s => s.name)
  -- Apply firewall to all servers (inline; after they are running)
  applyFirewallGo env firewall.id readyServers
  -- Step 6: Create accessories server if needed
  let accessoriesInfo ←
    match opts.accessories with
    | some acc =>
      if acc.enabled && acc.placement == "dedicated-server" then do
        let dbServer ← runStep "accessories-server"
          (do
            let dbName := opts.serverName ++ "-db"
            let server ← createServerCall env dbName
            (if opts.mode == "dev" then emitEvent (.trackServer server.id) else pure ())
            let ready ← provCall (.waitForServer server.id)
              (env.waitForServerRes server.id)
            let _ ← provCall (.applyFirewall firewall.id server.id)
              (env.applyFirewallRes firewall.id server.id)
            pure ready)
          (fun s => some ("IP: " ++ s.ipv4))
        pure (some dbServer.id, some dbServer.ipv4)
      else do
        updateStep "accessories-server" .done
          (some (if acc.enabled then "Same server" else "Skipped"))
        pure ((none : Option Nat), (none : Option String))
    | none => do
      updateStep "accessories-server" .done (some "Skipped")
      pure ((none : Option Nat), (none : Option String))
  let accessoriesServerIp := accessoriesInfo.2
  -- Step 7: Create load balancer if multiple servers
  let loadBalancer ←
    if opts.serverCount > 1 then do
      let lb ← runStep "load-balancer"
        (do
          let created ← provCall
            (.createLoadBalancer (opts.serverName ++ "-lb") serverIds)
            (env.createLoadBalancerRes (opts.serverName ++ "-lb") serverIds)
          provCall (.waitForLoadBalancer created.id)
            (env.waitForLoadBalancerRes created.id))
        (fun lb => some ("LB IP: " ++ lb.ipv4))
      pure (some lb)
    else do
      updateStep "load-balancer" .done (some "Skipped (single server)")
      pure (none : Option LoadBalancerView)
  -- Public IP is LB if present, else first server
  let publicIp := jsOrString (loadBalancer.map (fun lb => lb.ipv4)) (serverIps.headD "")
  -- Step 8: Wait for SSH to be available on all servers
  (if isDryRun then
    updateStep "ssh-wait" .done (some "[dry-run] Skipped")
  else do
    let allServerIps :=
      match accessoriesServerIp with
      | some ip => serverIps ++ [ip]
      | none => serverIps
    runStep "ssh-wait" (sshWaitGo env allServerIps)
      (fun _ => some ("SSH ready on " ++ toString allServerIps.length ++ " server(s)")))
  -- Generate Dockerfile if needed
  (if !projectInfo.hasDockerfile then
    if isDryRun then
      updateStep "dockerfile" .done (some "[dry-run] Would generate")
    else
      runStep "dockerfile" (liftE env.generateDockerfileRes) (fun _ => some "Generated")
  else
    updateStep "dockerfile" .done (some "Using existing Dockerfile"))
  -- Check Kamal is installed locally
  (if isDryRun then
    updateStep "kamal-check" .done (some "[dry-run] Skipped")
  else
    runStep "kamal-check"
      (if env.kamalInstalled then pure ()
       else throwM "Kamal not installed. Run: gem install kamal")
      (fun _ => none))
  -- Run kamal init and modify deploy.yml
  (if isDryRun then
    updateStep "kamal-init" .done (some "[dry-run] Skipped")
  else
    runStep "kamal-init" (liftE env.kamalInitRes) (fun _ => none))
  -- Commit config files
  (if isDryRun then
    updateStep "git-commit" .done (some "[dry-run] Skipped")
  else
    runStep "git-commit"
      (if env.gitCommitExit == 0 then pure () else throwM "git commit failed")
      (fun _ => none))
  -- Run Kamal setup
  (if isDryRun then
    updateStep "kamal-setup" .done (some "[dry-run] Skipped")
  else
    runStep "kamal-setup" (liftE env.kamalSetupRes) (fun _ => none))
  let finalDomain := jsOrString opts.domain (publicIp ++ ".nip.io")
  pure {
    serverIds := serverIds,
    serverIps := serverIps,
    serverNames := serverNames,
    loadBalancerId := loadBalancer.map (fun lb => lb.id),
    loadBalancerIp := loadBalancer.map (fun lb => lb.ipv4),
    domain := finalDomain }

/-- Run a deployment from the initial step table and an empty trace. -/
def runDeploy (env : DeployEnv) (opts : DeployOptions) :
    Except String DeployResult × DState :=
  fullDeploy env opts { steps := initialSteps, trace := [] }

/-! ## Concrete environments and trace observations -/

/-- A deterministic provider on which every call succeeds: the n-th created
server gets id `100 + n`, waits report `running` with ip `10.0.0.<id>`,
the load balancer gets id 900 and public ip `203.0.113.9`. -/
def happyEnv : DeployEnv where
  detect := .ok { ptype := "node", hasDockerfile := true, name := "demo" }
  generateKey := .ok { name := "ship-it-key", publicKey := "PUBKEY",
                       privateKeyPath := "/keys/key" }
  ensureSSHKeyRes := fun _ _ => .ok ()
  ensureFirewallRes := fun name _ => .ok { id := 500, name := name }
  createServerRes := fun idx name =>
    .ok { id := 100 + idx, name := name, status := "initializing",
          ipv4 := "", ipv6 := "::1" }
  waitForServerRes := fun id =>
    .ok { id := id, name := "srv-" ++ toString id, status := "running",
          ipv4 := "10.0.0." ++ toString id, ipv6 := "::1" }
  applyFirewallRes := fun _ _ => .ok ()
  createLoadBalancerRes := fun name targets =>
    .ok { id := 900, name := name, ipv4 := "", targets := targets }
  waitForLoadBalancerRes := fun id =>
    .ok { id := id, name := "lb", ipv4 := "203.0.113.9", targets := [] }
  waitForSSHRes := fun _ => .ok ()
  generateDockerfileRes := .ok ()
  kamalInstalled := true
  kamalInitRes := .ok ()
  gitCommitExit := 0
  kamalSetupRes := .ok ()

/-- Production-mode options for `n` replicas of `demo`, no accessories. -/
def plainOpts (n : Nat) : DeployOptions :=
  { serverName := "demo", location := "ash", serverType := "cx22",
    serverCount := n, accessories := none, domain := none, mode := "production" }

/-- Options with a dedicated accessories (DB) server enabled. -/
def dedicatedOpts (n : Nat) : DeployOptions :=
  { serverName := "demo", location := "ash", serverType := "cx22",
    serverCount := n,
    accessories := some { enabled := true, placement := "dedicated-server",
                          accessories := [{ port := 5432 }] },
    domain := none, mode := "production" }

def createdNames (tr : List HEvent) : List String :=
  tr.filterMap (fun e => match e with | .createServer name _ => some name | _ => none)

def createdIds (tr : List HEvent) : List Nat :=
  tr.filterMap (fun e => match e with | .createServer _ id => some id | _ => none)

def isApplyEvent (e : HEvent) : Bool :=
  match e with | .applyFirewall _ _ => true | _ => false

def applyCount (tr : List HEvent) : Nat := tr.countP isApplyEvent

/-- Server ids whose running-status poll was issued before the first
firewall-apply call of the trace. -/
def waitedIdsBeforeFirstApply (tr : List HEvent) : List Nat :=
  (tr.takeWhile (fun e => !(isApplyEvent e))).filterMap
    (fun e => match e with | .waitForServer id => some id | _ => none)

def lbCreates (tr : List HEvent) : List (String × List Nat) :=
  tr.filterMap (fun e => match e with
    | .createLoadBalancer name targets => some (name, targets)
    | _ => none)

def trackedIds (tr : List HEvent) : List Nat :=
  tr.filterMap (fun e => match e with | .trackServer id => some id | _ => none)

def stepStatusOf (s : DState) (stepId : String) : Option StepStatus :=
  (s.steps.find? (fun st => st.id == stepId)).map (fun st => st.status)

def stepMessageOf (s : DState) (stepId : String) : Option (Option String) :=
  (s.steps.find? (fun st => st.id == stepId)).map (fun st => st.message)

def deployErr (r : Except String DeployResult × DState) : Option String :=
  match r.1 with | .error e => some e | .ok _ => none

def deployOk (r : Except String DeployResult × DState) : Option DeployResult :=
  match r.1 with | .ok res => some res | .error _ => none

/-- Names the specification prescribes for the N app servers:
`name` when N = 1, else `name-i` for i in 1..N. -/
def specServerNames (name : String) (n : Nat) : List String :=
  if n = 1 then [name]
  else (List.range' 1 n).map (fun i => name ++ "-" ++ toString i)

/-- The error component of a fallible result. -/
def errOf {α : Type} : Except String α → Option String
  | .error e => some e
  | .ok _ => none

/-- `needle` occurs as a contiguous substring of `haystack`. -/
def mentionsText (needle haystack : String) : Prop :=
  needle.data <:+: haystack.data

instance (needle haystack : String) : Decidable (mentionsText needle haystack) :=
  List.decidableInfix needle.data haystack.data

/-- A server that never reports `running`, whatever the poll attempt. -/
def neverRunningServer : Nat → ServerView :=
  fun _ => { id := 1, name := "srv", status := "initializing", ipv4 := "", ipv6 := "" }

/-- A load balancer that never gets a public address. -/
def neverReadyLB : Nat → LoadBalancerView :=
  fun _ => { id := 1, name := "lb", ipv4 := "", targets := [] }

/-! # Theorems -/

/-- C1: with persisted cleanup state holding credential T and server ids 101, 102,
`initCleanup("T")` issues exactly the delete calls for 101 and 102 (whatever
the provider answers), clears the in-memory tracked set and the persisted
file, and in a dev-mode provisioning run all these deletes precede the
creation of any new server. -/
theorem initCleanup_recovers_orphans (deleteOk : Nat → Bool) (newName : String)
    (newId : Nat) :
    (initCleanup deleteOk "T" initialCleanupState
        (some { hetznerToken := some "T", serverIds := [101, 102] })).1 = [101, 102] ∧
    (initCleanup deleteOk "T" initialCleanupState
        (some { hetznerToken := some "T", serverIds := [101, 102] })).2.1.serverIds = [] ∧
    (initCleanup deleteOk "T" initialCleanupState
        (some { hetznerToken := some "T", serverIds := [101, 102] })).2.2 = none ∧
    (provisionDev deleteOk "T" newName newId initialCleanupState
        (some { hetznerToken := some "T", serverIds := [101, 102] })).1 =
      [CliEvent.deleteServer 101, CliEvent.deleteServer 102,
       CliEvent.createServer newName] :=
  ⟨rfl, rfl, rfl, rfl⟩

/-- C2: after `trackServer(serverId)` the persisted file holds exactly the
full current in-memory state, whose tracked set is the previous set plus
`serverId`; in particular the new id is in the persisted set. -/
theorem trackServer_durable (st : CleanupState) (file : CleanupFile) (serverId : Nat) :
    (trackServer st file serverId).2 = some (trackServer st file serverId).1 ∧
    (trackServer st file serverId).1.serverIds = st.serverIds ++ [serverId] ∧
    serverId ∈ (trackServer st file serverId).1.serverIds := by
  refine ⟨rfl, rfl, ?_⟩
  simp [trackServer]

/-- C3: with a credential present, `runCleanup` issues one delete per
tracked id regardless of the per-delete outcomes (failures never abort the
sweep); a second call right after issues no deletes and changes nothing;
and on an empty tracked set the call is a no-op. -/
theorem runCleanup_idempotent (del1 del2 : Nat → Bool) (st : CleanupState)
    (file : CleanupFile) (htok : st.hetznerToken ≠ none) :
    (runCleanup del1 st file).1 = st.serverIds ∧
    runCleanup del2 (runCleanup del1 st file).2.1 (runCleanup del1 st file).2.2 =
      ([], (runCleanup del1 st file).2.1, (runCleanup del1 st file).2.2) ∧
    (st.serverIds = [] → runCleanup del1 st file = ([], st, file)) := by
  by_cases hids : st.serverIds = []
  · refine ⟨?_, ?_, fun _ => ?_⟩ <;> simp [runCleanup, hids]
  · refine ⟨?_, ?_, fun h => absurd h hids⟩ <;> simp [runCleanup, hids, htok]

/-- C3 witness: two tracked servers, a credential, and a provider failing
every delete: the first sweep still attempts both, the second is a no-op. -/
theorem runCleanup_idempotent_witness :
    (runCleanup (fun _ => false) { hetznerToken := some "T", serverIds := [5, 6] }
        (some { hetznerToken := some "T", serverIds := [5, 6] })).1 = [5, 6] ∧
    runCleanup (fun _ => false)
        (runCleanup (fun _ => false) { hetznerToken := some "T", serverIds := [5, 6] }
          (some { hetznerToken := some "T", serverIds := [5, 6] })).2.1
        (runCleanup (fun _ => false) { hetznerToken := some "T", serverIds := [5, 6] }
          (some { hetznerToken := some "T", serverIds := [5, 6] })).2.2 =
      ([], (runCleanup (fun _ => false) { hetznerToken := some "T", serverIds := [5, 6] }
          (some { hetznerToken := some "T", serverIds := [5, 6] })).2.1,
       (runCleanup (fun _ => false) { hetznerToken := some "T", serverIds := [5, 6] }
          (some { hetznerToken := some "T", serverIds := [5, 6] })).2.2) := by
  have h := runCleanup_idempotent (fun _ => false) (fun _ => false)
    { hetznerToken := some "T", serverIds := [5, 6] }
    (some { hetznerToken := some "T", serverIds := [5, 6] }) (by decide)
  exact ⟨h.1, h.2.1⟩

/-- C10: with no stored credential, `runCleanup` returns immediately: no
delete calls, in-memory state and persisted file untouched, even when
tracked ids exist. -/
theorem runCleanup_no_credential_noop (deleteOk : Nat → Bool) (st : CleanupState)
    (file : CleanupFile) (h : st.hetznerToken = none) :
    runCleanup deleteOk st file = ([], st, file) := by
  simp [runCleanup, h]

/-- C10 witness: two tracked ids but a null credential: nothing is swept
and nothing is cleared. -/
theorem runCleanup_no_credential_noop_witness :
    runCleanup (fun _ => true) { hetznerToken := none, serverIds := [7, 8] }
        (some { hetznerToken := none, serverIds := [7, 8] }) =
      ([], { hetznerToken := none, serverIds := [7, 8] },
       some { hetznerToken := none, serverIds := [7, 8] }) :=
  runCleanup_no_credential_noop (fun _ => true)
    { hetznerToken := none, serverIds := [7, 8] }
    (some { hetznerToken := none, serverIds := [7, 8] }) rfl

theorem find?_append_singleton {α : Type} (p : α → Bool) (l : List α) (k : α)
    (h : l.find? p = none) (hk : p k = true) :
    (l ++ [k]).find? p = some k := by
  rw [List.find?_append, h]
  simp [List.find?_cons, hk]

/-- C9: `ensureSSHKey` and `ensureFirewall` are lookup-by-name
get-or-create: a create call is issued exactly when no resource of that
name exists; when one exists it is returned and the provider state is
untouched; the returned resource always carries the requested name; and a
second ensure with the same name issues no create call and returns the
same resource in the same provider state. -/
theorem ensure_get_or_create (ps : ProviderState) (name publicKey : String)
    (options : FirewallOptions) :
    (ensureSSHKey ps name publicKey).2.2 = (getSSHKeyByName ps name).isNone ∧
    (ensureSSHKey ps name publicKey).2.1.name = name ∧
    ((getSSHKeyByName ps name).isSome = true →
      (ensureSSHKey ps name publicKey).1 = ps ∧
      getSSHKeyByName ps name = some (ensureSSHKey ps name publicKey).2.1) ∧
    (ensureSSHKey (ensureSSHKey ps name publicKey).1 name publicKey).2.2 = false ∧
    (ensureSSHKey (ensureSSHKey ps name publicKey).1 name publicKey).2.1 =
      (ensureSSHKey ps name publicKey).2.1 ∧
    (ensureSSHKey (ensureSSHKey ps name publicKey).1 name publicKey).1 =
      (ensureSSHKey ps name publicKey).1 ∧
    (ensureFirewall ps name options).2.2 = (getFirewallByName ps name).isNone ∧
    (ensureFirewall ps name options).2.1.name = name ∧
    ((getFirewallByName ps name).isSome = true →
      (ensureFirewall ps name options).1 = ps ∧
      getFirewallByName ps name = some (ensureFirewall ps name options).2.1) ∧
    (ensureFirewall (ensureFirewall ps name options).1 name options).2.2 = false ∧
    (ensureFirewall (ensureFirewall ps name options).1 name options).2.1 =
      (ensureFirewall ps name options).2.1 ∧
    (ensureFirewall (ensureFirewall ps name options).1 name options).1 =
      (ensureFirewall ps name options).1 := by
  have sshPart :
      (ensureSSHKey ps name publicKey).2.2 = (getSSHKeyByName ps name).isNone ∧
      (ensureSSHKey ps name publicKey).2.1.name = name ∧
      ((getSSHKeyByName ps name).isSome = true →
        (ensureSSHKey ps name publicKey).1 = ps ∧
        getSSHKeyByName ps name = some (ensureSSHKey ps name publicKey).2.1) ∧
      (ensureSSHKey (ensureSSHKey ps name publicKey).1 name publicKey).2.2 = false ∧
      (ensureSSHKey (ensureSSHKey ps name publicKey).1 name publicKey).2.1 =
        (ensureSSHKey ps name publicKey).2.1 ∧
      (ensureSSHKey (ensureSSHKey ps name publicKey).1 name publicKey).1 =
        (ensureSSHKey ps name publicKey).1 := by
    cases h : getSSHKeyByName ps name with
    | some k =>
      have hk : k.name = name := by
        have hfind := List.find?_some (p := fun x => x.name == name) (a := k)
          (by simpa [getSSHKeyByName] using h)
        simpa [beq_iff_eq] using hfind
      refine ⟨?_, ?_, ?_, ?_, ?_, ?_⟩ <;> simp [ensureSSHKey, h, hk]
    | none =>
      have h2 : getSSHKeyByName (createSSHKey ps name publicKey).1 name =
          some (createSSHKey ps name publicKey).2 := by
        show (ps.sshKeys ++ [(createSSHKey ps name publicKey).2]).find?
            (fun x => x.name == name) = some (createSSHKey ps name publicKey).2
        exact find?_append_singleton _ _ _
          (by simpa [getSSHKeyByName] using h) (by simp [createSSHKey])
      exact ⟨by simp [ensureSSHKey, h], by simp [ensureSSHKey, h, createSSHKey],
        by simp [ensureSSHKey, h], by simp [ensureSSHKey, h, h2],
        by simp [ensureSSHKey, h, h2], by simp [ensureSSHKey, h, h2]⟩
  have fwPart :
      (ensureFirewall ps name options).2.2 = (getFirewallByName ps name).isNone ∧
      (ensureFirewall ps name options).2.1.name = name ∧
      ((getFirewallByName ps name).isSome = true →
        (ensureFirewall ps name options).1 = ps ∧
        getFirewallByName ps name = some (ensureFirewall ps name options).2.1) ∧
      (ensureFirewall (ensureFirewall ps name options).1 name options).2.2 = false ∧
      (ensureFirewall (ensureFirewall ps name options).1 name options).2.1 =
        (ensureFirewall ps name options).2.1 ∧
      (ensureFirewall (ensureFirewall ps name options).1 name options).1 =
        (ensureFirewall ps name options).1 := by
    cases h : getFirewallByName ps name with
    | some f =>
      have hf : f.name = name := by
        have hfind := List.find?_some (p := fun x => x.name == name) (a := f)
          (by simpa [getFirewallByName] using h)
        simpa [beq_iff_eq] using hfind
      refine ⟨?_, ?_, ?_, ?_, ?_, ?_⟩ <;> simp [ensureFirewall, h, hf]
    | none =>
      have h2 : getFirewallByName (createFirewall ps name options).1 name =
          some (createFirewall ps name options).2 := by
        show (ps.firewalls ++ [(createFirewall ps name options).2]).find?
            (fun x => x.name == name) = some (createFirewall ps name options).2
        exact find?_append_singleton _ _ _
          (by simpa [getFirewallByName] using h) (by simp [createFirewall])
      exact ⟨by simp [ensureFirewall, h], by simp [ensureFirewall, h, createFirewall],
        by simp [ensureFirewall, h], by simp [ensureFirewall, h, h2],
        by simp [ensureFirewall, h, h2], by simp [ensureFirewall, h, h2]⟩
  exact ⟨sshPart.1, sshPart.2.1, sshPart.2.2.1, sshPart.2.2.2.1, sshPart.2.2.2.2.1,
    sshPart.2.2.2.2.2, fwPart.1, fwPart.2.1, fwPart.2.2.1, fwPart.2.2.2.1,
    fwPart.2.2.2.2.1, fwPart.2.2.2.2.2⟩

/-- A provider that already holds an SSH key `deploy` and a firewall `deploy`. -/
def seededProvider : ProviderState :=
  { sshKeys := [{ id := 1, name := "deploy", fingerprint := "f", public_key := "pk" }],
    firewalls := [{ id := 2, name := "deploy" }], nextId := 3 }

/-- C9 witness: on a provider already holding the named key and firewall,
ensure issues no creates, returns the existing resources, and a repeat
call changes nothing. -/
theorem ensure_get_or_create_witness :
    ((ensureSSHKey seededProvider "deploy" "pk2").1 = seededProvider ∧
      getSSHKeyByName seededProvider "deploy" =
        some (ensureSSHKey seededProvider "deploy" "pk2").2.1) ∧
    ((ensureFirewall seededProvider "deploy" {}).1 = seededProvider ∧
      getFirewallByName seededProvider "deploy" =
        some (ensureFirewall seededProvider "deploy" {}).2.1) ∧
    (ensureSSHKey seededProvider "deploy" "pk2").2.2 = false ∧
    (ensureFirewall seededProvider "deploy" {}).2.2 = false := by
  have h := ensure_get_or_create seededProvider "deploy" "pk2" {}
  exact ⟨h.2.2.1 (by decide), h.2.2.2.2.2.2.2.2.1 (by decide), by decide, by decide⟩

theorem waitForServerGo_timeout (f : Nat → ServerView)
    (hf : ∀ k, (f k).status ≠ "running") (fuel : Nat) :
    ∀ attempt, waitForServerGo f attempt fuel = .error "Server creation timed out" := by
  induction fuel with
  | zero => intro attempt; rfl
  | succ n ih => intro attempt; simp [waitForServerGo, hf attempt, ih]

theorem waitForLoadBalancerGo_timeout (g : Nat → LoadBalancerView)
    (hg : ∀ k, (g k).ipv4 = "") (fuel : Nat) :
    ∀ attempt, waitForLoadBalancerGo g attempt fuel =
      .error "Load balancer creation timed out" := by
  induction fuel with
  | zero => intro attempt; rfl
  | succ n ih => intro attempt; simp [waitForLoadBalancerGo, hg attempt, ih]

theorem waitForSSHGo_timeout (ec : Nat → Nat) (ip : String) (timeoutMs : Nat)
    (hec : ∀ k, ec k ≠ 0) (fuel : Nat) :
    ∀ attempt, waitForSSHGo ec ip timeoutMs attempt fuel =
      .error ("SSH connection to " ++ ip ++ " timed out after "
              ++ toString (timeoutMs / 1000) ++ "s") := by
  induction fuel with
  | zero => intro attempt; rfl
  | succ n ih => intro attempt; simp [waitForSSHGo, hec attempt, ih]

/-- C7 counterexample: the server and load-balancer wait loops fail on
timeout with the fixed messages `Server creation timed out` and
`Load balancer creation timed out`, neither of which contains the
`timed out after Ns` wording the claim prescribes for every loop. -/
theorem poll_timeout_message_counterexample :
    errOf (waitForServer neverRunningServer serverWaitTimeoutMs) =
      some "Server creation timed out" ∧
    ¬ mentionsText "timed out after" "Server creation timed out" ∧
    errOf (waitForLoadBalancer neverReadyLB lbWaitTimeoutMs) =
      some "Load balancer creation timed out" ∧
    ¬ mentionsText "timed out after" "Load balancer creation timed out" := by
  refine ⟨?_, by decide, ?_, by decide⟩
  · have h := waitForServerGo_timeout neverRunningServer (fun k => by
      simp [neverRunningServer]) (pollBudget serverWaitTimeoutMs serverPollDelayMs) 0
    simp [waitForServer, h, errOf]
  · have h := waitForLoadBalancerGo_timeout neverReadyLB (fun k => by
      simp [neverReadyLB]) (pollBudget lbWaitTimeoutMs lbPollDelayMs) 0
    simp [waitForLoadBalancer, h, errOf]

/-- C7 amended: each polling loop uses a fixed inter-poll delay and a hard
wall-clock timeout, and on timeout fails with a fixed loop-specific
timeout message rather than the underlying not-ready condition or provider
response; only the SSH wait message has the `timed out after Ns` form
(`timed out after 180s`), while the server and load-balancer waits say
`Server creation timed out` and `Load balancer creation timed out`. -/
theorem poll_timeout_distinct_amended :
    serverPollDelayMs = 2000 ∧ serverWaitTimeoutMs = 120000 ∧
    lbPollDelayMs = 2000 ∧ lbWaitTimeoutMs = 60000 ∧
    sshPollDelayMs = 3000 ∧ sshWaitTimeoutMs = 180000 ∧
    (∀ f : Nat → ServerView, (∀ k, (f k).status ≠ "running") →
      errOf (waitForServer f serverWaitTimeoutMs) =
        some "Server creation timed out") ∧
    (∀ g : Nat → LoadBalancerView, (∀ k, (g k).ipv4 = "") →
      errOf (waitForLoadBalancer g lbWaitTimeoutMs) =
        some "Load balancer creation timed out") ∧
    (∀ ec : Nat → Nat, (∀ k, ec k ≠ 0) → ∀ ip : String,
      errOf (waitForSSH ec ip sshWaitTimeoutMs) =
        some ("SSH connection to " ++ ip ++ " timed out after "
              ++ toString (sshWaitTimeoutMs / 1000) ++ "s")) ∧
    mentionsText "timed out after" "SSH connection to 1.2.3.4 timed out after 180s" := by
  refine ⟨rfl, rfl, rfl, rfl, rfl, rfl, ?_, ?_, ?_, by decide⟩
  · intro f hf
    have h := waitForServerGo_timeout f hf (pollBudget serverWaitTimeoutMs serverPollDelayMs) 0
    simp [waitForServer, h, errOf]
  · intro g hg
    have h := waitForLoadBalancerGo_timeout g hg (pollBudget lbWaitTimeoutMs lbPollDelayMs) 0
    simp [waitForLoadBalancer, h, errOf]
  · intro ec hec ip
    have h := waitForSSHGo_timeout ec ip sshWaitTimeoutMs hec
      (pollBudget sshWaitTimeoutMs sshPollDelayMs) 0
    simp [waitForSSH, h, errOf]

/-- C7 amended witness: a server stuck in `initializing`, a load balancer
with no address, and an ssh endpoint always exiting 255 each hit their
loop-specific timeout message. -/
theorem poll_timeout_distinct_amended_witness :
    errOf (waitForServer neverRunningServer serverWaitTimeoutMs) =
      some "Server creation timed out" ∧
    errOf (waitForLoadBalancer neverReadyLB lbWaitTimeoutMs) =
      some "Load balancer creation timed out" ∧
    errOf (waitForSSH (fun _ => 255) "1.2.3.4" sshWaitTimeoutMs) =
      some "SSH connection to 1.2.3.4 timed out after 180s" := by
  have h := poll_timeout_distinct_amended
  refine ⟨h.2.2.2.2.2.2.1 neverRunningServer (fun k => by simp [neverRunningServer]),
    h.2.2.2.2.2.2.2.1 neverReadyLB (fun k => by simp [neverReadyLB]),
    ?_⟩
  have hs := h.2.2.2.2.2.2.2.2.1 (fun _ => 255) (fun k => by simp) "1.2.3.4"
  simpa using hs

set_option maxRecDepth 8000
set_option maxHeartbeats 2000000

/-- C4: for every replica count N in [1,10], `fullDeploy` issues exactly N
server-create calls, named `demo` for N = 1 and `demo-i` for i in 1..N
otherwise, and the running-status poll of every one of the N created
servers completes before the first firewall-apply call (of which there is
one per server). -/
theorem create_then_poll_before_apply : ∀ n : Nat, 1 ≤ n → n ≤ 10 →
    createdNames (runDeploy happyEnv (plainOpts n)).2.trace = specServerNames "demo" n ∧
    (createdIds (runDeploy happyEnv (plainOpts n)).2.trace).length = n ∧
    waitedIdsBeforeFirstApply (runDeploy happyEnv (plainOpts n)).2.trace =
      createdIds (runDeploy happyEnv (plainOpts n)).2.trace ∧
    applyCount (runDeploy happyEnv (plainOpts n)).2.trace = n := by
  intro n h1 h2
  interval_cases n <;> decide!

/-- C4 witness: three replicas. -/
theorem create_then_poll_before_apply_witness :
    1 ≤ 3 ∧ 3 ≤ 10 ∧
    (createdNames (runDeploy happyEnv (plainOpts 3)).2.trace = specServerNames "demo" 3 ∧
     (createdIds (runDeploy happyEnv (plainOpts 3)).2.trace).length = 3 ∧
     waitedIdsBeforeFirstApply (runDeploy happyEnv (plainOpts 3)).2.trace =
       createdIds (runDeploy happyEnv (plainOpts 3)).2.trace ∧
     applyCount (runDeploy happyEnv (plainOpts 3)).2.trace = 3) :=
  ⟨by decide, by decide, create_then_poll_before_apply 3 (by decide) (by decide)⟩

/-- C5: with a dedicated accessories server requested, for every N in
[1,10] a load balancer is created iff N > 1; when created it is named
`demo-lb` and its target list is exactly the ids of the N created app
servers; the dedicated accessories server (the last create, N+1 in total)
is never among the targets. -/
theorem lb_iff_multiple_servers : ∀ n : Nat, 1 ≤ n → n ≤ 10 →
    (lbCreates (runDeploy happyEnv (dedicatedOpts n)).2.trace ≠ [] ↔ 1 < n) ∧
    lbCreates (runDeploy happyEnv (dedicatedOpts n)).2.trace =
      (if 1 < n then
        [("demo-lb", (createdIds (runDeploy happyEnv (dedicatedOpts n)).2.trace).take n)]
       else []) ∧
    (createdIds (runDeploy happyEnv (dedicatedOpts n)).2.trace).length = n + 1 ∧
    (∀ p ∈ lbCreates (runDeploy happyEnv (dedicatedOpts n)).2.trace,
      (createdIds (runDeploy happyEnv (dedicatedOpts n)).2.trace).getLastD 0 ∉ p.2) := by
  intro n h1 h2
  interval_cases n <;> decide!

/-- C5 witness: three replicas plus the dedicated accessories server. -/
theorem lb_iff_multiple_servers_witness :
    1 ≤ 3 ∧ 3 ≤ 10 ∧
    lbCreates (runDeploy happyEnv (dedicatedOpts 3)).2.trace =
      [("demo-lb", (createdIds (runDeploy happyEnv (dedicatedOpts 3)).2.trace).take 3)] ∧
    (createdIds (runDeploy happyEnv (dedicatedOpts 3)).2.trace).getLastD 0 = 103 :=
  ⟨by decide, by decide,
   by simpa using (lb_iff_multiple_servers 3 (by decide) (by decide)).2.1,
   by decide!⟩

/-- A provider identical to `happyEnv` except that applying the firewall to
the second created server (id 101) is rejected. -/
def applyFailEnv : DeployEnv :=
  { happyEnv with applyFirewallRes := fun _ serverId =>
      if serverId == 101 then .error "firewall apply rejected" else .ok () }

/-- C6 counterexample: when firewall-apply fails on the second of three
servers the run aborts with an error naming the server — but no step is
ever marked `error`: the apply loop has no step entry, so the claim that
"the apply step is error" is false. -/
theorem apply_fail_no_error_step_counterexample :
    deployErr (runDeploy applyFailEnv (plainOpts 3)) =
      some "Applying firewall to server 101: firewall apply rejected" ∧
    (runDeploy applyFailEnv (plainOpts 3)).2.steps.filter
      (fun s => s.status == .error) = [] := by decide!

/-- C6 amended: every tracked step is wrapped uniformly — set `running`
before its body runs, set `done` with the optional message on success, and
on exception set `error` with the failure text and rethrow prefixed by the
step display name (after which no later step starts, as the run aborts).
The firewall-apply loop is not a tracked step: failing on the second of
three servers aborts the run with a message naming the server id, leaving
the creation and polling steps `done`, no step in `error`, and the
accessories, load-balancer, SSH-wait and later steps `pending`. -/
theorem step_wrapping_fail_fast_amended :
    (∀ (α : Type) (stepId : String) (act : DeployM α)
        (msgF : α → Option String) (s : DState),
      runStep stepId act msgF s =
        match act (setStepState s stepId .running none) with
        | (.ok a, s2) => (.ok a, setStepState s2 stepId .done (msgF a))
        | (.error e, s2) =>
            (.error (displayName (setStepState s2 stepId .error (some e)).steps stepId
                     ++ ": " ++ e),
             setStepState s2 stepId .error (some e))) ∧
    deployErr (runDeploy applyFailEnv (plainOpts 3)) =
      some "Applying firewall to server 101: firewall apply rejected" ∧
    mentionsText "101"
      "Applying firewall to server 101: firewall apply rejected" ∧
    stepStatusOf (runDeploy applyFailEnv (plainOpts 3)).2 "detect" = some .done ∧
    stepStatusOf (runDeploy applyFailEnv (plainOpts 3)).2 "ssh-key" = some .done ∧
    stepStatusOf (runDeploy applyFailEnv (plainOpts 3)).2 "firewall" = some .done ∧
    stepStatusOf (runDeploy applyFailEnv (plainOpts 3)).2 "servers" = some .done ∧
    stepStatusOf (runDeploy applyFailEnv (plainOpts 3)).2 "wait-servers" = some .done ∧
    stepStatusOf (runDeploy applyFailEnv (plainOpts 3)).2 "accessories-server" =
      some .pending ∧
    stepStatusOf (runDeploy applyFailEnv (plainOpts 3)).2 "load-balancer" =
      some .pending ∧
    stepStatusOf (runDeploy applyFailEnv (plainOpts 3)).2 "ssh-wait" = some .pending ∧
    stepStatusOf (runDeploy applyFailEnv (plainOpts 3)).2 "kamal-setup" = some .pending ∧
    (runDeploy applyFailEnv (plainOpts 3)).2.steps.filter
      (fun s => s.status == .error) = [] := by
  constructor
  · intro α stepId act msgF s
    cases h : act (setStepState s stepId .running none) with
    | mk r s2 =>
      cases r with
      | ok a => simp [runStep, updateStep, modifyM, tryCatchM, getM, throwM,
          Bind.bind, Pure.pure, h]
      | error e => simp [runStep, updateStep, modifyM, tryCatchM, getM, throwM,
          Bind.bind, Pure.pure, h]
  · decide!

/-- Ephemeral (dev) mode options of the three-replica scenario. -/
def ephemeralOpts : DeployOptions :=
  { serverName := "demo", location := "ash", serverType := "cx22",
    serverCount := 3, accessories := none, domain := none, mode := "dev" }

/-- C8: with no explicit domain, a single-server production run skips the
load-balancer step (status `done`, message `Skipped (single server)`,
no create call) and derives the external address from the sole server ip;
a three-replica ephemeral run creates `demo-1..3` (tracking their ids for
cleanup), and derives the external address from the load balancer ip —
which matches no server address. -/
theorem external_address_selection :
    (deployOk (runDeploy happyEnv (plainOpts 1))).map (fun r => r.domain) =
      some "10.0.0.100.nip.io" ∧
    (deployOk (runDeploy happyEnv (plainOpts 1))).map (fun r => r.serverIps) =
      some ["10.0.0.100"] ∧
    (deployOk (runDeploy happyEnv (plainOpts 1))).map (fun r => r.loadBalancerIp) =
      some none ∧
    lbCreates (runDeploy happyEnv (plainOpts 1)).2.trace = [] ∧
    stepStatusOf (runDeploy happyEnv (plainOpts 1)).2 "load-balancer" = some .done ∧
    stepMessageOf (runDeploy happyEnv (plainOpts 1)).2 "load-balancer" =
      some (some "Skipped (single server)") ∧
    createdNames (runDeploy happyEnv ephemeralOpts).2.trace =
      ["demo-1", "demo-2", "demo-3"] ∧
    trackedIds (runDeploy happyEnv ephemeralOpts).2.trace = [100, 101, 102] ∧
    (deployOk (runDeploy happyEnv ephemeralOpts)).map (fun r => r.loadBalancerIp) =
      some (some "203.0.113.9") ∧
    (deployOk (runDeploy happyEnv ephemeralOpts)).map (fun r => r.domain) =
      some "203.0.113.9.nip.io" ∧
    (deployOk (runDeploy happyEnv ephemeralOpts)).map
      (fun r => (r.serverIps.map (fun ip => ip ++ ".nip.io")).contains r.domain) =
      some false := by decide!

end ShipIt
